import Mathlib

/-!
Shallow embedding of the CMC Genesys item-size analysis engine
(src/Genesys_app.py): dimension normalization, machine-fit status,
cardboard-width bucketing, and the OK/No-OK summary.

Numeric cell values are modelled as rationals; a pandas NaN (a cell that
failed numeric coercion) is modelled as `Option.none`.  Pandas comparisons
against NaN evaluate to false, which `optLE` reproduces.  The fallible
column lookup `df[col]` is modelled with `Except` (a missing column raises
KeyError in pandas).
-/

namespace Genesys

/-- Machine envelope constant from the source, line 5. -/
def MAX_WIDTH : ℚ := 22

/-- Machine envelope constant from the source, line 6. -/
def MAX_LENGTH : ℚ := 15

/-- Machine envelope constant from the source, line 7. -/
def MAX_HEIGHT : ℚ := 11

/-- Smaller cardboard stock width, CARDBOARD_OPTIONS[0] (line 9). -/
def SMALL_W : ℚ := 23

/-- Larger cardboard stock width, CARDBOARD_OPTIONS[1] (line 9). -/
def LARGE_W : ℚ := 39

/-- CARDBOARD_OPTIONS = [23, 39], ascending (line 9). -/
def CARDBOARD_OPTIONS : List ℚ := [SMALL_W, LARGE_W]

/-- str(CARDBOARD_OPTIONS[0]) as written into the result column (line 37). -/
def SMALL_LABEL : String := "23"

/-- str(CARDBOARD_OPTIONS[1]) as written into the result column (line 36). -/
def LARGE_LABEL : String := "39"

/-- A raw spreadsheet cell: numeric content, non-numeric text, or blank. -/
inductive Cell where
  | num (q : ℚ)
  | text (s : String)
  | blank
deriving DecidableEq

/-- pd.to_numeric with coercion of errors (lines 60-62): numeric content is
kept, any unparseable or blank cell becomes the missing sentinel, never 0. -/
def to_numeric : Cell → Option ℚ
  | Cell.num q => some q
  | Cell.text _ => none
  | Cell.blank => none

/-- A pandas comparison of a possibly-NaN value against a constant:
NaN compares false. -/
def optLE (x : Option ℚ) (c : ℚ) : Bool :=
  match x with
  | some v => decide (v ≤ c)
  | none => false

/-- Per-row invalid flag (line 64): true iff any of the three coerced
dimensions is missing. -/
def invalid (h w l : Option ℚ) : Bool :=
  h.isNone || w.isNone || l.isNone

/-- NaN-propagating product height * width * length (line 67). -/
def volume_raw : Option ℚ → Option ℚ → Option ℚ → Option ℚ
  | some a, some b, some c => some (a * b * c)
  | _, _, _ => none

/-- Volume after masking invalid rows to NA (line 68). -/
def volume (h w l : Option ℚ) : Option ℚ :=
  if invalid h w l then none else volume_raw h w l

/-- fits_machine (lines 71-75): all three upper bounds hold, NaN failing. -/
def fits_machine (h w l : Option ℚ) : Bool :=
  optLE h MAX_HEIGHT && optLE w MAX_WIDTH && optLE l MAX_LENGTH

/-- Status column (lines 77-78): default No OK, overwritten with OK where
fits_machine holds and the row is not invalid. -/
def status (h w l : Option ℚ) : String :=
  if fits_machine h w l && !invalid h w l then "OK" else "No OK"

/-- One masking pass of pick_cardboard (lines 36-37): overwrite the result
entry with the label wherever the wrap is at most the threshold. -/
def maskStage (thr : ℚ) (lbl : String) (wraps : List ℚ) (result : List String) :
    List String :=
  (List.zip wraps result).map (fun p => if p.1 ≤ thr then lbl else p.2)

/-- pick_cardboard (lines 29-38) on a whole column of wraps: initialize
every entry to No Fit, overwrite with 39 where wrap is at most 39, then
overwrite with 23 where wrap is at most 23. -/
def pick_cardboard_masked (wraps : List ℚ) : List String :=
  maskStage SMALL_W SMALL_LABEL wraps
    (maskStage LARGE_W LARGE_LABEL wraps (wraps.map (fun _ => "No Fit")))

/-- pick_cardboard (lines 29-38) restricted to a single row with both
dimensions present: wrap = width + height, default No Fit, the 39 label
where wrap is at most 39, then the 23 label overwriting where wrap is at
most 23. -/
def pick_cardboard (width height : ℚ) : String :=
  let wrap := width + height
  let r0 := "No Fit"
  let r1 := if wrap ≤ LARGE_W then LARGE_LABEL else r0
  let r2 := if wrap ≤ SMALL_W then SMALL_LABEL else r1
  r2

/-- Cardboard width column (lines 81-86): default No Fit, and rows where
both height and width coerced successfully get pick_cardboard of the pair. -/
def cardboard_width (height width : Option ℚ) : String :=
  match height, width with
  | some a, some b => pick_cardboard b a
  | _, _ => "No Fit"

/-- Modelled from the spec, section 4.2: evaluate an ascending list of
cardboard widths, first match wins, smallest sufficient width's label. -/
def pick_cardboard_ordered_list (opts : List (ℚ × String)) (wrap : ℚ) : String :=
  match opts with
  | [] => "No Fit"
  | (thr, lbl) :: rest =>
      if wrap ≤ thr then lbl else pick_cardboard_ordered_list rest wrap

/-- Modelled from the spec, section 4.2: the ordered evaluation rule at the
two configured widths, smallest first. -/
def pick_cardboard_ordered (wrap : ℚ) : String :=
  pick_cardboard_ordered_list [(SMALL_W, SMALL_LABEL), (LARGE_W, LARGE_LABEL)] wrap

/-- An input row: opaque identifier cell plus the three raw dimension cells. -/
structure Row where
  itemId : Cell
  heightCell : Cell
  widthCell : Cell
  lengthCell : Cell
deriving DecidableEq

/-- A row of df_out (lines 89-97): identifier, coerced dimensions, volume,
machine-fit status, cardboard bucket. -/
structure OutRow where
  itemId : Cell
  height : Option ℚ
  width : Option ℚ
  length : Option ℚ
  volume : Option ℚ
  status : String
  cardboard : String
deriving DecidableEq

/-- The per-row classification pipeline (lines 59-97). -/
def processRow (r : Row) : OutRow :=
  let h := to_numeric r.heightCell
  let w := to_numeric r.widthCell
  let l := to_numeric r.lengthCell
  { itemId := r.itemId
    height := h
    width := w
    length := l
    volume := volume h w l
    status := status h w l
    cardboard := cardboard_width h w }

/-- Count of rows whose Status is OK (line 101). -/
def ok_count (out : List OutRow) : Nat :=
  out.countP (fun r => r.status == "OK")

/-- Count of rows whose Status is No OK (line 102). -/
def no_ok_count (out : List OutRow) : Nat :=
  out.countP (fun r => r.status == "No OK")

/-- Round a rational to 2 decimal places, ties to even, as Python round
does on the percentage values (line 109). -/
def round2 (q : ℚ) : ℚ :=
  let s : ℚ := q * 100
  let f : ℤ := ⌊s⌋
  let r : ℤ :=
    if s - f < 1 / 2 then f
    else if 1 / 2 < s - f then f + 1
    else if f % 2 = 0 then f else f + 1
  (r : ℚ) / 100

/-- The summary record (lines 100-111). -/
structure Summary where
  total : Nat
  okCount : Nat
  noOkCount : Nat
  okPct : ℚ
  noOkPct : ℚ
deriving DecidableEq

/-- Summary construction (lines 100-111): counts, percentages guarded by
the total-nonzero test, rounded to 2 decimals for the summary table. -/
def mkSummary (out : List OutRow) : Summary :=
  let total := out.length
  let okc := ok_count out
  let noc := no_ok_count out
  let okp : ℚ := if total = 0 then 0 else (okc : ℚ) / (total : ℚ) * 100
  let nop : ℚ := if total = 0 then 0 else (noc : ℚ) / (total : ℚ) * 100
  { total := total
    okCount := okc
    noOkCount := noc
    okPct := round2 okp
    noOkPct := round2 nop }

/-- A logical table: named columns of cells, in order. -/
def Table := List (String × List Cell)

/-- Column lookup df[col] (lines 59-62): the first column with the given
name, or a KeyError carrying the missing name. -/
def selectColumn : List (String × List Cell) → String → Except String (List Cell)
  | [], c => Except.error c
  | p :: rest, c => if p.1 == c then Except.ok p.2 else selectColumn rest c

/-- Whether the table has a column of the given name. -/
def hasColumn (t : List (String × List Cell)) (c : String) : Bool :=
  t.any (fun p => p.1 == c)

/-- Align the four selected columns row by row. -/
def zipRows : List Cell → List Cell → List Cell → List Cell → List Row
  | i :: is, h :: hs, w :: ws, l :: ls =>
      ⟨i, h, w, l⟩ :: zipRows is hs ws ls
  | _, _, _, _ => []

/-- Boolean success test for an Except value. -/
def exceptIsOk {α : Type} : Except String α → Bool
  | Except.ok _ => true
  | Except.error _ => false

/-- The whole engine run (lines 57-111): select the four columns (failing
loudly on a missing one), classify every row, build the summary. -/
def process (t : List (String × List Cell)) (idCol hCol wCol lCol : String) :
    Except String (List OutRow × Summary) :=
  match selectColumn t idCol, selectColumn t hCol,
        selectColumn t wCol, selectColumn t lCol with
  | Except.ok ids, Except.ok hs, Except.ok ws, Except.ok ls =>
      let out := (zipRows ids hs ws ls).map processRow
      Except.ok (out, mkSummary out)
  | Except.error e, _, _, _ => Except.error e
  | _, Except.error e, _, _ => Except.error e
  | _, _, Except.error e, _ => Except.error e
  | _, _, _, Except.error e => Except.error e

/-! Helper lemmas shared across the development. -/

theorem no_ok_ne_ok : ("No OK" : String) ≠ "OK" := by decide

theorem statusCases (h w l : Option ℚ) :
    status h w l = "OK" ∨ status h w l = "No OK" := by
  unfold status
  split
  · exact Or.inl rfl
  · exact Or.inr rfl

theorem status_ok_iff (a b c : ℚ) :
    status (some a) (some b) (some c) = "OK" ↔
      (a ≤ MAX_HEIGHT ∧ b ≤ MAX_WIDTH ∧ c ≤ MAX_LENGTH) := by
  unfold status fits_machine optLE invalid
  by_cases h1 : a ≤ MAX_HEIGHT <;> by_cases h2 : b ≤ MAX_WIDTH <;>
    by_cases h3 : c ≤ MAX_LENGTH <;> simp [h1, h2, h3, no_ok_ne_ok]

theorem status_none_left (w l : Option ℚ) : status none w l = "No OK" := by
  unfold status fits_machine optLE
  rfl

theorem pick_cardboard_eq (w h : ℚ) :
    pick_cardboard w h =
      if w + h ≤ SMALL_W then SMALL_LABEL
      else if w + h ≤ LARGE_W then LARGE_LABEL
      else "No Fit" := rfl

/-- `C1`: a row's Status is OK exactly when all three dimensions parsed and
each is at or below its limit (bounds inclusive); every other row is No OK,
and no third status value exists. -/
theorem C1_machine_fit_iff (h w l : Option ℚ) :
    (status h w l = "OK" ↔
      ∃ a b c : ℚ, h = some a ∧ w = some b ∧ l = some c ∧
        a ≤ MAX_HEIGHT ∧ b ≤ MAX_WIDTH ∧ c ≤ MAX_LENGTH) ∧
    (status h w l = "OK" ∨ status h w l = "No OK") := by
  refine ⟨?_, statusCases h w l⟩
  cases h with
  | none => simp [status, fits_machine, optLE, no_ok_ne_ok]
  | some a =>
    cases w with
    | none => simp [status, fits_machine, optLE, no_ok_ne_ok]
    | some b =>
      cases l with
      | none => simp [status, fits_machine, optLE, invalid, no_ok_ne_ok]
      | some c =>
        rw [status_ok_iff]
        constructor
        · rintro ⟨h1, h2, h3⟩
          exact ⟨a, b, c, rfl, rfl, rfl, h1, h2, h3⟩
        · rintro ⟨a1, b1, c1, ha1, hb1, hc1, h1, h2, h3⟩
          injection ha1 with ha1
          injection hb1 with hb1
          injection hc1 with hc1
          subst ha1; subst hb1; subst hc1
          exact ⟨h1, h2, h3⟩

/-- `C2`: the cardboard bucket is No Fit when height or width is missing;
otherwise, with wrap = height + width, the bucket is the smallest configured
width at least as large as the wrap, evaluated in ascending order with the
first match winning, and No Fit when even the largest width is too small. -/
theorem C2_cardboard_bucket :
    (∀ w : Option ℚ, cardboard_width none w = "No Fit") ∧
    (∀ h : Option ℚ, cardboard_width h none = "No Fit") ∧
    (∀ a b : ℚ, cardboard_width (some a) (some b) =
      if a + b ≤ SMALL_W then SMALL_LABEL
      else if a + b ≤ LARGE_W then LARGE_LABEL
      else "No Fit") := by
  refine ⟨fun w => rfl, fun h => ?_, fun a b => ?_⟩
  · cases h <;> rfl
  · show pick_cardboard b a = _
    rw [pick_cardboard_eq, add_comm b a]

/-- `C3`: volume is present exactly when all three dimensions parsed, and
then equals height * width * length exactly; otherwise it is the missing
sentinel, never 0 and never a number. -/
theorem C3_volume_iff :
    (∀ h w l : Option ℚ,
      (volume h w l).isSome = (h.isSome && w.isSome && l.isSome)) ∧
    (∀ a b c : ℚ, volume (some a) (some b) (some c) = some (a * b * c)) := by
  constructor
  · intro h w l
    cases h <;> cases w <;> cases l <;> rfl
  · intro a b c
    rfl

theorem beq_ok_no_ok : (("OK" : String) == "No OK") = false := by decide

theorem beq_no_ok_ok : (("No OK" : String) == "OK") = false := by decide

theorem counts_add (out : List OutRow)
    (hall : ∀ r ∈ out, r.status = "OK" ∨ r.status = "No OK") :
    ok_count out + no_ok_count out = out.length := by
  induction out with
  | nil => rfl
  | cons r rs ih =>
    have hr := hall r (List.mem_cons_self r rs)
    have hrs := ih fun x hx => hall x (List.mem_cons_of_mem r hx)
    simp only [ok_count, no_ok_count, List.countP_cons, List.length_cons] at hrs ⊢
    rcases hr with h | h <;>
      simp [h, beq_ok_no_ok, beq_no_ok_ok] <;> omega

theorem processRow_status (r : Row) :
    (processRow r).status =
      status (to_numeric r.heightCell) (to_numeric r.widthCell)
        (to_numeric r.lengthCell) := rfl

/-- `C4`: for every input table, also the zero-row one, the summary counts
satisfy okCount + noOkCount = total, and total is the row count. -/
theorem C4_summary_counts (rows : List Row) :
    (mkSummary (rows.map processRow)).okCount
        + (mkSummary (rows.map processRow)).noOkCount
      = (mkSummary (rows.map processRow)).total ∧
    (mkSummary (rows.map processRow)).total = rows.length := by
  constructor
  · have hall : ∀ r ∈ rows.map processRow,
        r.status = "OK" ∨ r.status = "No OK" := by
      intro r hr
      rcases List.mem_map.mp hr with ⟨x, _, rfl⟩
      rw [processRow_status]
      exact statusCases _ _ _
    simpa [mkSummary] using counts_add (rows.map processRow) hall
  · simp [mkSummary]

theorem round2_zero : round2 0 = 0 := by
  norm_num [round2]

/-- `C5`: the summary percentages are count / total * 100 rounded to two
decimals, and a zero-row table short-circuits both percentages to 0 instead
of dividing by zero. -/
theorem C5_percentages (rows : List Row) :
    (mkSummary (rows.map processRow)).okPct =
      (if rows.length = 0 then 0 else
        round2 ((ok_count (rows.map processRow) : ℚ) / (rows.length : ℚ) * 100)) ∧
    (mkSummary (rows.map processRow)).noOkPct =
      (if rows.length = 0 then 0 else
        round2 ((no_ok_count (rows.map processRow) : ℚ) / (rows.length : ℚ) * 100)) := by
  by_cases h : rows.length = 0 <;>
    simp [mkSummary, h, round2_zero]

/-- `C6`: the cardboard bucket never depends on the length cell: two rows
with identical height and width cells and arbitrary length cells receive
identical buckets from the pipeline. -/
theorem C6_cardboard_ignores_length (i1 i2 h w l1 l2 : Cell) :
    (processRow ⟨i1, h, w, l1⟩).cardboard
      = (processRow ⟨i2, h, w, l2⟩).cardboard := rfl

theorem masked_cons (x : ℚ) (xs : List ℚ) :
    pick_cardboard_masked (x :: xs) =
      (if x ≤ SMALL_W then SMALL_LABEL
       else if x ≤ LARGE_W then LARGE_LABEL
       else "No Fit") :: pick_cardboard_masked xs := rfl

/-- `C7`: the vectorized masking of pick_cardboard (default No Fit, then
overwrite where wrap fits 39, then overwrite where wrap fits 23) computes,
row by row, exactly the ordered smallest-first first-match-wins rule. -/
theorem C7_masked_refines_ordered (wraps : List ℚ) :
    pick_cardboard_masked wraps = wraps.map pick_cardboard_ordered := by
  induction wraps with
  | nil => rfl
  | cons x xs ih =>
    rw [masked_cons, List.map_cons, ih]
    rfl

/-- `C8`: the normalizer is a total function: unparseable or blank cells
become the missing sentinel (never 0), numeric cells keep their value, and
the per-row invalid flag holds exactly when at least one of the three
coerced dimensions is missing. -/
theorem C8_normalizer_total :
    (∀ s, to_numeric (Cell.text s) = none) ∧
    (to_numeric Cell.blank = none) ∧
    (∀ q, to_numeric (Cell.num q) = some q) ∧
    (∀ hc wc lc : Cell,
      invalid (to_numeric hc) (to_numeric wc) (to_numeric lc) = true ↔
        (to_numeric hc = none ∨ to_numeric wc = none ∨ to_numeric lc = none)) := by
  refine ⟨fun s => rfl, rfl, fun q => rfl, fun hc wc lc => ?_⟩
  cases hc <;> cases wc <;> cases lc <;> simp [invalid, to_numeric]

theorem selectColumn_isOk (t : List (String × List Cell)) (c : String) :
    exceptIsOk (selectColumn t c) = hasColumn t c := by
  induction t with
  | nil => rfl
  | cons p rest ih =>
    by_cases h : (p.1 == c) = true
    · simp [selectColumn, hasColumn, exceptIsOk, h]
    · simp only [selectColumn, hasColumn, List.any_cons] at ih ⊢
      simp [h, ih]

/-- `C9`: the engine run succeeds exactly when all four selected columns
exist in the table, so a missing column is rejected loudly rather than
guessed; a table with no columns at all is always rejected. -/
theorem C9_structural_failure (t : List (String × List Cell))
    (i h w l : String) :
    (exceptIsOk (process t i h w l) =
      (hasColumn t i && hasColumn t h && hasColumn t w && hasColumn t l)) ∧
    process ([] : List (String × List Cell)) i h w l = Except.error i := by
  constructor
  · have ei := selectColumn_isOk t i
    have eh := selectColumn_isOk t h
    have ew := selectColumn_isOk t w
    have el := selectColumn_isOk t l
    cases hi : selectColumn t i <;> cases hh : selectColumn t h <;>
      cases hw : selectColumn t w <;> cases hl : selectColumn t l <;>
      rw [hi] at ei <;> rw [hh] at eh <;> rw [hw] at ew <;> rw [hl] at el <;>
      simp [process, hi, hh, hw, hl, exceptIsOk, ← ei, ← eh, ← ew, ← el]
  · rfl

/-- `C10`: no lower bound or positivity check exists: a row whose three
cells parse to zero or negative values counts as valid, gets Status OK, and
its nonpositive wrap lands in the smallest cardboard bucket. -/
theorem C10_no_lower_bound (a b c : ℚ)
    (ha : a ≤ 0) (hb : b ≤ 0) (hc : c ≤ 0) :
    invalid (some a) (some b) (some c) = false ∧
    status (some a) (some b) (some c) = "OK" ∧
    cardboard_width (some a) (some b) = SMALL_LABEL := by
  refine ⟨rfl, ?_, ?_⟩
  · rw [status_ok_iff]
    refine ⟨le_trans ha (by norm_num [MAX_HEIGHT]),
      le_trans hb (by norm_num [MAX_WIDTH]),
      le_trans hc (by norm_num [MAX_LENGTH])⟩
  · have hw : b + a ≤ SMALL_W :=
      le_trans (add_nonpos hb ha) (by norm_num [SMALL_W])
    show pick_cardboard b a = SMALL_LABEL
    rw [pick_cardboard_eq, if_pos hw]

/-- Witness for `C10` at the concrete row (-1, 0, -2). -/
theorem C10_no_lower_bound_witness :
    invalid (some (-1 : ℚ)) (some 0) (some (-2)) = false ∧
    status (some (-1 : ℚ)) (some 0) (some (-2)) = "OK" ∧
    cardboard_width (some (-1 : ℚ)) (some 0) = SMALL_LABEL :=
  C10_no_lower_bound (-1) 0 (-2) (by norm_num) (by norm_num) (by norm_num)

end Genesys
